import Mathlib

/-!
Verification development for the SPCS analytics-dashboard template.

The repository is a small Express server (three variants: `server.js`, and the
two fuller servers in the sources) exposing read-only aggregate endpoints
backed by a Snowflake warehouse.  This file shallowly embeds the pieces the
specification talks about:

* the query-string filter helpers `getDateFilter` / `getCategoryFilter`,
* the per-request handler skeleton (connect, query, respond, destroy in
  finally) common to all data endpoints,
* the SQL text each endpoint sends (whitespace inside the JS template
  literals is normalized to single spaces; no property below depends on
  layout),
* the connection provisioners of the three server variants, and
* a relational evaluator modelling the warehouse executing the generated
  aggregate statements over the ORDERS / PRODUCTS tables.

External effects (the Snowflake SDK, the filesystem, the clock) are passed in
explicitly as oracle values.
-/

namespace Spcs

/-- JS truthiness for an optional string value: `undefined` and the empty
string are falsy, every other string is truthy. -/
def truthy : Option String → Bool
  | none => false
  | some s => if s = "" then false else true

/-- JS `a || b` on optional string values. -/
def jsOr (a b : Option String) : Option String :=
  if truthy a then a else b

/-- JS `x || d` where `d` is a string literal default. -/
def jsOrDefault (x : Option String) (d : String) : String :=
  match x with
  | none => d
  | some s => if s = "" then d else s

/-- `getDateFilter` from the full server: maps the symbolic period bucket to
a SQL date-range fragment; `undefined`, the empty string, `all`, and any
unrecognized value yield the empty fragment. -/
def getDateFilter : Option String → String
  | none => ""
  | some t =>
    if t = "" ∨ t = "all" then ""
    else if t = "q1" then
      "AND o.order_date >= '2024-01-01' AND o.order_date < '2024-04-01'"
    else if t = "q2" then
      "AND o.order_date >= '2024-04-01' AND o.order_date < '2024-07-01'"
    else if t = "recent3" then
      "AND o.order_date >= '2024-04-01' AND o.order_date < '2024-07-01'"
    else if t = "early3" then
      "AND o.order_date >= '2024-01-01' AND o.order_date < '2024-04-01'"
    else ""

/-- `getCategoryFilter` from the full server: the sentinel `all`, absence and
the empty string yield no filter; any other category is interpolated verbatim
between single quotes. -/
def getCategoryFilter : Option String → String
  | none => ""
  | some c =>
    if c = "" ∨ c = "all" then ""
    else "AND p.category = '" ++ (c ++ "'")

/-- The calendar-date range each recognized bucket denotes, read off the
literal bounds occurring in `getDateFilter`. -/
def bucketRange (t : String) : Option (String × String) :=
  if t = "q1" then some ("2024-01-01", "2024-04-01")
  else if t = "q2" then some ("2024-04-01", "2024-07-01")
  else if t = "recent3" then some ("2024-04-01", "2024-07-01")
  else if t = "early3" then some ("2024-01-01", "2024-04-01")
  else none

/-- Rendering of a bucket range as the SQL fragment `getDateFilter` emits. -/
def renderDateFilter : Option (String × String) → String
  | none => ""
  | some (lo, hi) =>
    "AND o.order_date >= '" ++ lo ++ "' AND o.order_date < '" ++ hi ++ "'"

/-- `getDateFilter` is exactly the rendering of `bucketRange`. -/
theorem getDateFilter_eq_render (t : String) :
    getDateFilter (some t) = renderDateFilter (bucketRange t) := by
  unfold getDateFilter bucketRange renderDateFilter
  split_ifs <;> simp_all

/-- Strict lexicographic comparison of char lists by code point; ISO
`YYYY-MM-DD` date strings compare under it exactly as SQL compares the
corresponding DATE values. -/
def charsLtB : List Char → List Char → Bool
  | [], [] => false
  | [], _ :: _ => true
  | _ :: _, [] => false
  | a :: as, b :: bs =>
    if a.val < b.val then true
    else if b.val < a.val then false
    else charsLtB as bs

/-- `a < b` on strings (model of SQL `<` on ISO dates). -/
def strLtB (a b : String) : Bool := charsLtB a.data b.data

/-- `a <= b` on strings, defined as the negation of `b < a` (the orders are
total, so this matches SQL `>=` with the arguments flipped). -/
def strLeB (a b : String) : Bool := !(strLtB b a)

/-- Membership of a date in a half-open bucket range `[lo, hi)`, as the SQL
predicate `order_date >= lo AND order_date < hi` evaluates it. -/
def inRangeB (r : String × String) (d : String) : Bool :=
  strLeB r.1 d && strLtB d r.2

/-- String append is associative (needed to exhibit substring
decompositions of the generated SQL). -/
theorem strAppend_assoc (a b c : String) : a ++ b ++ c = a ++ (b ++ c) := by
  rcases a with ⟨la⟩
  rcases b with ⟨lb⟩
  rcases c with ⟨lc⟩
  show String.mk ((la ++ lb) ++ lc) = String.mk (la ++ (lb ++ lc))
  rw [List.append_assoc]

/-- `needle` occurs verbatim inside `hay`. -/
def containsStr (needle hay : String) : Prop :=
  ∃ pre post, hay = pre ++ (needle ++ post)

/-! ### The statement each endpoint sends to the warehouse

Each handler builds one SQL string (a JS template literal) and hands it to
`executeQuery`, which passes it to the Snowflake client as
`{sqlText: query}`; none of the full server's endpoints passes a bind list,
so the statement's binds are always empty. -/

/-- The statement handed to the warehouse client: the SQL text plus the
(always empty) bind list. -/
structure Statement where
  sqlText : String
  binds : List String
deriving DecidableEq

/-- SQL of `/api/data`: sales-metrics summary.  The join is added exactly
when the category filter is a nonempty string (JS truthiness of
`categoryFilter`). -/
def dataSql (df cf : String) : String :=
  "SELECT COUNT(DISTINCT o.customer_id) as total_customers, " ++
  "COUNT(DISTINCT o.order_id) as total_orders, " ++
  "SUM(o.total_amount) as total_revenue, " ++
  "ROUND(AVG(o.total_amount), 2) as avg_order_value FROM ORDERS o " ++
  (if cf = "" then "" else "JOIN PRODUCTS p ON o.product_id = p.product_id") ++
  " WHERE 1=1 " ++ df ++ " " ++ cf ++ ";"

/-- SQL of `/api/monthly-revenue`. -/
def monthlyRevenueSql (df cf : String) : String :=
  "SELECT TO_CHAR(o.order_date, 'YYYY-MM') as month, " ++
  "SUM(o.total_amount) as revenue, " ++
  "COUNT(DISTINCT o.order_id) as orders, " ++
  "COUNT(DISTINCT o.customer_id) as customers FROM ORDERS o " ++
  (if cf = "" then "" else "JOIN PRODUCTS p ON o.product_id = p.product_id") ++
  " WHERE 1=1 " ++ df ++ " " ++ cf ++
  " GROUP BY TO_CHAR(o.order_date, 'YYYY-MM') ORDER BY month;"

/-- SQL of `/api/category-sales` when a specific category is selected:
per-product breakdown inside that category. -/
def productBreakdownSql (df cf : String) : String :=
  "SELECT p.product_name as CATEGORY, SUM(o.total_amount) as revenue, " ++
  "COUNT(o.order_id) as orders FROM ORDERS o " ++
  "JOIN PRODUCTS p ON o.product_id = p.product_id WHERE 1=1 " ++
  df ++ " " ++ cf ++
  " GROUP BY p.product_name, p.product_id ORDER BY revenue DESC LIMIT 8;"

/-- SQL of `/api/category-sales` for the `all` sentinel: per-category
breakdown. -/
def categoryBreakdownSql (df : String) : String :=
  "SELECT p.category, SUM(o.total_amount) as revenue, " ++
  "COUNT(o.order_id) as orders FROM ORDERS o " ++
  "JOIN PRODUCTS p ON o.product_id = p.product_id WHERE 1=1 " ++
  df ++ " GROUP BY p.category ORDER BY revenue DESC;"

/-- SQL of `/api/top-products`. -/
def topProductsSql : String :=
  "SELECT p.product_name, SUM(o.quantity) as units_sold, " ++
  "SUM(o.total_amount) as revenue FROM ORDERS o " ++
  "JOIN PRODUCTS p ON o.product_id = p.product_id " ++
  "GROUP BY p.product_name, p.product_id ORDER BY revenue DESC LIMIT 5;"

/-- SQL of `/api/categories`. -/
def categoriesSql : String :=
  "SELECT DISTINCT category FROM PRODUCTS ORDER BY category;"

/-- Shared SELECT/FROM head of both `/api/top-products-by-category`
branches. -/
def tpbcSelFrom : String :=
  "SELECT p.product_name, p.category, SUM(o.quantity) as units_sold, " ++
  "SUM(o.total_amount) as revenue FROM ORDERS o " ++
  "JOIN PRODUCTS p ON o.product_id = p.product_id "

/-- Shared GROUP BY / ORDER BY / LIMIT tail of both
`/api/top-products-by-category` branches. -/
def tpbcTail : String :=
  " GROUP BY p.product_name, p.category, p.product_id " ++
  "ORDER BY revenue DESC LIMIT 5;"

/-- SQL of `/api/top-products-by-category` for a specific category: the raw
category string is interpolated into the WHERE clause. -/
def tpbcSpecificSql (c df : String) : String :=
  (tpbcSelFrom ++ "WHERE p.category = '") ++ (c ++ (("' " ++ df) ++ tpbcTail))

/-- SQL of `/api/top-products-by-category` for the `all` sentinel. -/
def tpbcAllSql (df : String) : String :=
  tpbcSelFrom ++ ("WHERE 1=1 " ++ (df ++ tpbcTail))

/-! ### The per-request handler skeleton

All data endpoints share the shape
`try { connection = await connectToSnowflake(); rows = await executeQuery
(connection, query); res.json(success) } catch { res.status(...).json(err) }
finally { if (connection) connection.destroy() }`.
The Snowflake SDK and warehouse are an oracle: whether `connect` succeeds,
and what `executeQuery` yields for a statement (`none` = the query throws).
The result records how many times the handler acquired a live connection,
destroyed one, issued a query, and what response it sent. -/

/-- The external world of one request: does connecting succeed, and what
does the warehouse answer for a statement (`none` models a thrown query
error).  `ρ` is the row type of the result set. -/
structure Oracle (ρ : Type) where
  connectOk : Bool
  query : Statement → Option (List ρ)

/-- JSON response bodies occurring in the servers. -/
inductive Body (ρ : Type) where
  /-- the uniform error envelope `{success, error}` -/
  | envelope (success : Bool) (error : String)
  /-- `{success, data: rows}` -/
  | rowsData (success : Bool) (rows : List ρ)
  /-- `{success, data: rows[0], timestamp}` (the `/api/data` summary row) -/
  | singleData (success : Bool) (row : Option ρ) (timestamp : String)
  /-- `{success, data: rows, category}` (`/api/top-products-by-category`) -/
  | rowsWithCategory (success : Bool) (rows : List ρ) (category : String)
  /-- `{success, data: rows, count}` (`server.js` `/api/data` success) -/
  | rowsWithCount (success : Bool) (rows : List ρ) (count : Nat)
  /-- `server.js` `/api/data` failure fallback `{success:false, error,
  mockData:[{timestamp, user, role}], message}` -/
  | mock (success : Bool) (error : String) (mockTimestamp mockUser mockRole : String)
      (message : String)
  /-- `/api/health` body `{status, environment, port, host, timestamp}` -/
  | health (status environment : String) (port : Nat) (host : String) (timestamp : String)
deriving DecidableEq

/-- An HTTP response: status code and JSON body. -/
structure HttpResponse (ρ : Type) where
  status : Nat
  body : Body ρ
deriving DecidableEq

/-- What one request did: how many times the handler called the connector,
how many live connections it obtained and destroyed, how many statements it
sent, and the response it produced. -/
structure RequestEffects (ρ : Type) where
  connectCalls : Nat
  connectionsOpened : Nat
  connectionsDestroyed : Nat
  queryCalls : Nat
  response : HttpResponse ρ
deriving DecidableEq

/-- The shared try/catch/finally skeleton.  On connect failure the handler
local `connection` is still `undefined`, so `finally` destroys nothing; once
a live connection exists, `finally` destroys it on both the success and the
query-failure path. -/
def runDataEndpoint {ρ : Type} (o : Oracle ρ) (stmt : Statement)
    (onOk : List ρ → Body ρ) (errBody : Body ρ) (errStatus : Nat) :
    RequestEffects ρ :=
  match o.connectOk with
  | false =>
    { connectCalls := 1, connectionsOpened := 0, connectionsDestroyed := 0,
      queryCalls := 0, response := { status := errStatus, body := errBody } }
  | true =>
    match o.query stmt with
    | none =>
      { connectCalls := 1, connectionsOpened := 1, connectionsDestroyed := 1,
        queryCalls := 1, response := { status := errStatus, body := errBody } }
    | some rows =>
      { connectCalls := 1, connectionsOpened := 1, connectionsDestroyed := 1,
        queryCalls := 1, response := { status := 200, body := onOk rows } }

/-- The six data endpoints of the full server. -/
inductive Endpoint where
  | data
  | monthlyRevenue
  | categorySales
  | topProducts
  | categories
  | topProductsByCategory
deriving DecidableEq

/-- The statement an endpoint sends, as a function of the `period` and
`category` query-string values.  `/api/category-sales` and
`/api/top-products-by-category` branch on `category && category !== 'all'`;
`/api/top-products` and `/api/categories` ignore both filters. -/
def endpointStatement (e : Endpoint) (period category : Option String) :
    Statement :=
  match e with
  | .data =>
    ⟨dataSql (getDateFilter period) (getCategoryFilter category), []⟩
  | .monthlyRevenue =>
    ⟨monthlyRevenueSql (getDateFilter period) (getCategoryFilter category), []⟩
  | .categorySales =>
    match category with
    | some c =>
      if c = "" ∨ c = "all" then ⟨categoryBreakdownSql (getDateFilter period), []⟩
      else ⟨productBreakdownSql (getDateFilter period) (getCategoryFilter category), []⟩
    | none => ⟨categoryBreakdownSql (getDateFilter period), []⟩
  | .topProducts => ⟨topProductsSql, []⟩
  | .categories => ⟨categoriesSql, []⟩
  | .topProductsByCategory =>
    match category with
    | some c =>
      if c = "" ∨ c = "all" then ⟨tpbcAllSql (getDateFilter period), []⟩
      else ⟨tpbcSpecificSql c (getDateFilter period), []⟩
    | none => ⟨tpbcAllSql (getDateFilter period), []⟩

/-- The success body each endpoint serializes (`/api/data` sends `rows[0]`
and a timestamp; `/api/top-products-by-category` echoes
`category || 'all'`). -/
def onSuccessBody {ρ : Type} (e : Endpoint) (now : String)
    (category : Option String) (rows : List ρ) : Body ρ :=
  match e with
  | .data => .singleData true rows.head? now
  | .monthlyRevenue => .rowsData true rows
  | .categorySales => .rowsData true rows
  | .topProducts => .rowsData true rows
  | .categories => .rowsData true rows
  | .topProductsByCategory => .rowsWithCategory true rows (jsOrDefault category "all")

/-- The human-readable error category each endpoint's catch block sends. -/
def errMsg : Endpoint → String
  | .data => "Failed to fetch sales metrics"
  | .monthlyRevenue => "Failed to fetch monthly revenue data"
  | .categorySales => "Failed to fetch category sales data"
  | .topProducts => "Failed to fetch top products data"
  | .categories => "Failed to fetch categories"
  | .topProductsByCategory => "Failed to fetch products by category data"

/-- One request to a data endpoint of the full server. -/
def runEndpoint {ρ : Type} (e : Endpoint) (period category : Option String)
    (now : String) (o : Oracle ρ) : RequestEffects ρ :=
  runDataEndpoint o (endpointStatement e period category)
    (onSuccessBody e now category) (.envelope false (errMsg e)) 500

/-- The sample query of `server.js` `/api/data`. -/
def serverJsDataSql (wh : String) : String :=
  "USE WAREHOUSE " ++ wh ++ "; SELECT CURRENT_TIMESTAMP() as timestamp, " ++
  "CURRENT_USER() as user, CURRENT_ROLE() as role;"

/-- `server.js` `/api/data`: on success `{success:true, data, count}`; on
any failure it answers with the default 200 status and a
`{success:false, error, mockData, message}` fallback body. -/
def serverJsApiData {ρ : Type} (o : Oracle ρ) (wh now : String) :
    RequestEffects ρ :=
  runDataEndpoint o ⟨serverJsDataSql wh, []⟩
    (fun rows => .rowsWithCount true rows rows.length)
    (.mock false "Database connection failed" now "mock_user" "mock_role"
      "Using mock data for development") 200

/-- `/api/health`: a constant-shape body computed from the token-file
existence check and the clock; the warehouse oracle is never consulted and
no connection is touched. -/
def apiHealth {ρ : Type} (tokenExists : Bool) (port : Nat) (host now : String)
    (_o : Oracle ρ) : RequestEffects ρ :=
  { connectCalls := 0, connectionsOpened := 0, connectionsDestroyed := 0,
    queryCalls := 0,
    response :=
      { status := 200,
        body := .health "OK"
          (if tokenExists then "SPCS Container" else "Local Development")
          port host now } }

/-! ### Connection provisioners (credential mode)

Three variants exist in the repository.  `server.js` merges the parsed
`~/.snowsql/config` `connections.default` section with environment values
using JS `||`; the fuller server with the `ini` import parses the same file
but then builds its options from environment variables alone; the server
with the hand-rolled INI parser takes account/username/password from the
config section only, validates them, and only then creates a connection. -/

/-- The `SNOWFLAKE_*` environment variables the provisioners read
(`username` is `SNOWFLAKE_USERNAME`, `user` is `SNOWFLAKE_USER`). -/
structure EnvVars where
  account : Option String
  username : Option String
  user : Option String
  password : Option String
  role : Option String
  warehouse : Option String
  database : Option String
  schema : Option String
deriving DecidableEq

/-- The fields `server.js` reads from the `connections.default` section of
`~/.snowsql/config`. -/
structure SnowsqlConnection where
  account : Option String
  username : Option String
  password : Option String
  warehouse : Option String
deriving DecidableEq

/-- The credential-mode parameter set `server.js` builds. -/
structure SnowflakeConfig where
  account : Option String
  username : Option String
  password : Option String
  role : Option String
  warehouse : Option String
  database : Option String
  schema : Option String
deriving DecidableEq

/-- `getSnowflakeConfig` of `server.js` in the non-containerized branch:
`cfgFile` is the parsed `connections.default` section when the config file
exists, `none` when it does not. -/
def getSnowflakeConfigLocal (cfgFile : Option SnowsqlConnection)
    (env : EnvVars) : SnowflakeConfig :=
  match cfgFile with
  | some c =>
    { account := jsOr c.account env.account
      username := jsOr c.username env.username
      password := jsOr c.password env.password
      role := jsOr env.role (some "APP_SPCS_ROLE")
      warehouse := jsOr c.warehouse (jsOr env.warehouse (some "COMPUTE_WH"))
      database := jsOr env.database (some "SPCS_APP_DB")
      schema := jsOr env.schema (some "APP_SCHEMA") }
  | none =>
    { account := env.account
      username := env.username
      password := env.password
      role := jsOr env.role (some "APP_SPCS_ROLE")
      warehouse := jsOr env.warehouse (some "COMPUTE_WH")
      database := jsOr env.database (some "SPCS_APP_DB")
      schema := jsOr env.schema (some "APP_SCHEMA") }

/-- A section of the hand-parsed snowsql config, with both spellings of each
field that `connectToSnowflakeFromConfig` accepts. -/
structure SnowsqlSection where
  accountname : Option String
  account : Option String
  username : Option String
  user : Option String
  private_key_path : Option String
  password : Option String
  warehousename : Option String
  warehouse : Option String
  databasename : Option String
  database : Option String
  schemaname : Option String
  schema : Option String
deriving DecidableEq

/-- The error taxonomy of provisioning: configuration errors (thrown before
any credential material is touched) and credential errors (auth material
unreadable). -/
inductive ProvisionError where
  | configurationError (message : String)
  | credentialError (message : String)
deriving DecidableEq

/-- Authentication material of a provisioned parameter set. -/
inductive AuthMethod where
  | keyPair (pem : String)
  | pw (password : String)
deriving DecidableEq

/-- The connection parameters `connectToSnowflakeFromConfig` hands to
`snowflake.createConnection`. -/
structure SfConnectionParams where
  account : String
  username : String
  warehouse : String
  database : Option String
  schema : Option String
  auth : AuthMethod
deriving DecidableEq

/-- Parameter extraction and validation of `connectToSnowflakeFromConfig`
(the server with the hand-rolled INI parser): account and username come from
the config section alone, the environment is consulted only for
warehouse/database/schema fallbacks; missing required fields throw before
`snowflake.createConnection` is reached.  `keyFileContent` is the oracle for
`loadPrivateKey` (`none` or the empty string model an unreadable key). -/
def provisionFromSnowsqlSection (s : SnowsqlSection) (env : EnvVars)
    (keyFileContent : Option String) :
    Except ProvisionError SfConnectionParams :=
  let account := jsOr s.accountname s.account
  let username := jsOr s.username s.user
  let privateKeyPath := s.private_key_path
  let password := s.password
  let warehouse := jsOr s.warehousename (jsOr s.warehouse
    (jsOr env.warehouse (some "COMPUTE_WH")))
  let database := jsOr s.databasename (jsOr s.database env.database)
  let schema := jsOr s.schemaname (jsOr s.schema env.schema)
  if truthy account = false ∨ truthy username = false then
    .error (.configurationError
      "Missing required connection parameters (account, username)")
  else if truthy privateKeyPath = false ∧ truthy password = false then
    .error (.configurationError
      "Missing authentication method (private_key_path or password)")
  else if truthy privateKeyPath then
    if truthy keyFileContent then
      .ok { account := account.getD "", username := username.getD "",
            warehouse := warehouse.getD "", database := database,
            schema := schema, auth := .keyPair (keyFileContent.getD "") }
    else .error (.credentialError "Failed to load private key")
  else
    .ok { account := account.getD "", username := username.getD "",
          warehouse := warehouse.getD "", database := database,
          schema := schema, auth := .pw (password.getD "") }

/-- Failure of the whole connect flow: a provisioning error, or the SDK
rejecting the connect call. -/
inductive ConnectError where
  | provision (e : ProvisionError)
  | connectFailed
deriving DecidableEq

/-- The full `connectToSnowflakeFromConfig` flow: provision, then (only on
success) create and connect exactly one connection.  The second component
counts the connection attempts made. -/
def connectFromConfigFlow (s : SnowsqlSection) (env : EnvVars)
    (keyFileContent : Option String) (connectOk : Bool) :
    Except ConnectError SfConnectionParams × Nat :=
  match provisionFromSnowsqlSection s env keyFileContent with
  | .error e => (.error (.provision e), 0)
  | .ok params => if connectOk then (.ok params, 1) else (.error .connectFailed, 1)

/-- The credential-mode options record of the server that parses the config
file with `ini` but never uses the parse result. -/
structure P010Options where
  account : Option String
  username : Option String
  password : Option String
  role : Option String
  warehouse : Option String
  database : Option String
  schema : Option String
deriving DecidableEq

/-- `getEnvConnectionOptions` of that server in the local branch: pure
environment values (the parsed config section is dead), with no validation
of any kind. -/
def p010LocalConnectionOptions (env : EnvVars) : P010Options :=
  { account := env.account
    username := env.user
    password := env.password
    role := env.role
    warehouse := jsOr env.warehouse (some "COMPUTE_WH")
    database := env.database
    schema := env.schema }

/-- Its `connectToSnowflake`: always builds the options and makes exactly
one connection attempt, no matter how incomplete the parameter set is. -/
def p010ConnectFlow (env : EnvVars) (connectOk : Bool) :
    Except ConnectError P010Options × Nat :=
  let opts := p010LocalConnectionOptions env
  if connectOk then (.ok opts, 1) else (.error .connectFailed, 1)

/-- An environment with every `SNOWFLAKE_*` variable unset. -/
def emptyEnv : EnvVars :=
  { account := none, username := none, user := none, password := none,
    role := none, warehouse := none, database := none, schema := none }

/-! ### A relational model of the warehouse

The ORDERS and PRODUCTS tables and an evaluator for the aggregate
statements the endpoints generate: inner join on `product_id`, the date
predicate of `getDateFilter`, grouping with SUM/COUNT, `ORDER BY revenue
DESC` and `LIMIT`. -/

/-- A row of the ORDERS table. -/
structure OrderRow where
  order_id : Nat
  customer_id : Nat
  product_id : Nat
  quantity : Nat
  total_amount : Int
  order_date : String
deriving DecidableEq

/-- A row of the PRODUCTS table. -/
structure ProductRow where
  product_id : Nat
  product_name : String
  category : String
deriving DecidableEq

/-- The warehouse database the endpoints query. -/
structure Db where
  orders : List OrderRow
  products : List ProductRow
deriving DecidableEq

/-- `FROM ORDERS o JOIN PRODUCTS p ON o.product_id = p.product_id`. -/
def joinedRows (db : Db) : List (OrderRow × ProductRow) :=
  db.orders.flatMap fun o =>
    (db.products.filter fun p => p.product_id == o.product_id).map fun p => (o, p)

/-- The date predicate the `period` parameter compiles to: the empty filter
accepts everything, a bucket accepts its half-open range. -/
def datePassB (period : Option String) (d : String) : Bool :=
  match period with
  | none => true
  | some t =>
    match bucketRange t with
    | none => true
    | some r => inRangeB r d

/-- A result row of `/api/category-sales` (the first column is aliased
`CATEGORY` in both branches: a product name in the specific-category branch,
a category in the `all` branch). -/
structure CSRow where
  name : String
  revenue : Int
  orders : Nat
deriving DecidableEq

/-- Revenue-descending comparison of `/api/category-sales` rows. -/
def revDescCS (a b : CSRow) : Prop := b.revenue ≤ a.revenue

instance : DecidableRel revDescCS := fun a b =>
  inferInstanceAs (Decidable (b.revenue ≤ a.revenue))

instance : IsTotal CSRow revDescCS :=
  ⟨fun a b => le_total b.revenue a.revenue⟩

instance : IsTrans CSRow revDescCS :=
  ⟨fun _ _ _ hab hbc => le_trans hbc hab⟩

/-- One `/api/category-sales` group in the specific-category branch
(`GROUP BY p.product_name, p.product_id`). -/
def csGroup (rows : List (OrderRow × ProductRow)) (k : String × Nat) : CSRow :=
  let grp := rows.filter fun op => (op.2.product_name, op.2.product_id) == k
  { name := k.1
    revenue := (grp.map fun op => op.1.total_amount).sum
    orders := grp.length }

/-- The joined rows surviving the `/api/category-sales` specific-category
WHERE clause. -/
def csFiltered (db : Db) (period : Option String) (c : String) :
    List (OrderRow × ProductRow) :=
  (joinedRows db).filter fun op =>
    datePassB period op.1.order_date && (op.2.category == c)

/-- `/api/category-sales`, specific category: group by product, order by
revenue descending, LIMIT 8. -/
def productBreakdownRows (db : Db) (period : Option String) (c : String) :
    List CSRow :=
  (List.insertionSort revDescCS
    (((csFiltered db period c).map
        fun op => (op.2.product_name, op.2.product_id)).dedup.map
      (csGroup (csFiltered db period c)))).take 8

/-- One `/api/category-sales` group in the `all` branch
(`GROUP BY p.category`). -/
def ccGroup (rows : List (OrderRow × ProductRow)) (k : String) : CSRow :=
  let grp := rows.filter fun op => op.2.category == k
  { name := k
    revenue := (grp.map fun op => op.1.total_amount).sum
    orders := grp.length }

/-- The joined rows surviving the `/api/category-sales` `all`-branch WHERE
clause (date filter only). -/
def ccFiltered (db : Db) (period : Option String) :
    List (OrderRow × ProductRow) :=
  (joinedRows db).filter fun op => datePassB period op.1.order_date

/-- `/api/category-sales`, `all` sentinel: group by category, order by
revenue descending (no LIMIT). -/
def categoryBreakdownRows (db : Db) (period : Option String) : List CSRow :=
  List.insertionSort revDescCS
    (((ccFiltered db period).map fun op => op.2.category).dedup.map
      (ccGroup (ccFiltered db period)))

/-- The rows `/api/category-sales` returns: the branch on
`category && category !== 'all'` selects the per-product or per-category
evaluator. -/
def categorySalesRows (db : Db) (period : Option String) :
    Option String → List CSRow
  | some c =>
    if c = "" ∨ c = "all" then categoryBreakdownRows db period
    else productBreakdownRows db period c
  | none => categoryBreakdownRows db period

/-- A result row of `/api/top-products-by-category`: the shape
`{productName, category, unitsSold, revenue}`. -/
structure TPRow where
  product_name : String
  category : String
  units_sold : Nat
  revenue : Int
deriving DecidableEq

/-- Revenue-descending comparison of `/api/top-products-by-category`
rows. -/
def revDescTP (a b : TPRow) : Prop := b.revenue ≤ a.revenue

instance : DecidableRel revDescTP := fun a b =>
  inferInstanceAs (Decidable (b.revenue ≤ a.revenue))

instance : IsTotal TPRow revDescTP :=
  ⟨fun a b => le_total b.revenue a.revenue⟩

instance : IsTrans TPRow revDescTP :=
  ⟨fun _ _ _ hab hbc => le_trans hbc hab⟩

/-- The joined rows surviving the `/api/top-products-by-category` WHERE
clause (`p.category = '<c>'` only in the specific branch, date filter in
both). -/
def tpbcFiltered (db : Db) (period : Option String) :
    Option String → List (OrderRow × ProductRow)
  | some c =>
    if c = "" ∨ c = "all" then ccFiltered db period
    else (joinedRows db).filter fun op =>
      (op.2.category == c) && datePassB period op.1.order_date
  | none => ccFiltered db period

/-- One `/api/top-products-by-category` group
(`GROUP BY p.product_name, p.category, p.product_id`). -/
def tpbcGroup (rows : List (OrderRow × ProductRow))
    (k : String × String × Nat) : TPRow :=
  let grp := rows.filter fun op =>
    (op.2.product_name, op.2.category, op.2.product_id) == k
  { product_name := k.1
    category := k.2.1
    units_sold := (grp.map fun op => op.1.quantity).sum
    revenue := (grp.map fun op => op.1.total_amount).sum }

/-- The rows `/api/top-products-by-category` returns: group, order by
revenue descending, LIMIT 5 (both branches share the tail). -/
def topProductsByCategoryRows (db : Db) (period category : Option String) :
    List TPRow :=
  (List.insertionSort revDescTP
    (((tpbcFiltered db period category).map
        fun op => (op.2.product_name, op.2.category, op.2.product_id)).dedup.map
      (tpbcGroup (tpbcFiltered db period category)))).take 5

/-! ### Concrete oracles and databases used by witnesses -/

/-- An oracle whose connect succeeds and whose every query returns no
rows. -/
def oTrue : Oracle Unit := ⟨true, fun _ => some []⟩

/-- An oracle whose connect fails. -/
def oFail : Oracle Unit := ⟨false, fun _ => none⟩

/-- An oracle whose connect succeeds but whose every query throws. -/
def oQueryFail : Oracle Unit := ⟨true, fun _ => none⟩

/-! ### The claims -/

/-- Helper: the counting invariant of the shared handler skeleton, for any
statement, success serializer and error response. -/
theorem runDataEndpoint_counts {ρ : Type} (o : Oracle ρ) (stmt : Statement)
    (onOk : List ρ → Body ρ) (errBody : Body ρ) (errStatus : Nat) :
    (runDataEndpoint o stmt onOk errBody errStatus).connectCalls = 1 ∧
    (runDataEndpoint o stmt onOk errBody errStatus).connectionsOpened =
      (if o.connectOk then 1 else 0) ∧
    (runDataEndpoint o stmt onOk errBody errStatus).connectionsDestroyed =
      (runDataEndpoint o stmt onOk errBody errStatus).connectionsOpened := by
  unfold runDataEndpoint
  cases hc : o.connectOk
  · simp
  · cases hq : o.query stmt <;> simp

/-- C1: every data-endpoint request (the six endpoints of the full server,
and `server.js` `/api/data`) calls the connector exactly once; it obtains a
live connection exactly when connecting succeeds, and it destroys exactly as
many connections as it opened — so whenever connection creation succeeds the
connection is destroyed exactly once before the handler returns, on the
success path, the connect-failure path and the query-failure path alike. -/
theorem spcs_C1 :
    ∀ (ρ : Type) (e : Endpoint) (period category : Option String)
      (now : String) (o : Oracle ρ) (wh mockNow : String),
    ((runEndpoint e period category now o).connectCalls = 1 ∧
     (runEndpoint e period category now o).connectionsOpened =
       (if o.connectOk then 1 else 0) ∧
     (runEndpoint e period category now o).connectionsDestroyed =
       (runEndpoint e period category now o).connectionsOpened) ∧
    ((serverJsApiData o wh mockNow).connectCalls = 1 ∧
     (serverJsApiData o wh mockNow).connectionsOpened =
       (if o.connectOk then 1 else 0) ∧
     (serverJsApiData o wh mockNow).connectionsDestroyed =
       (serverJsApiData o wh mockNow).connectionsOpened) := by
  intro ρ e period category now o wh mockNow
  exact ⟨runDataEndpoint_counts o _ _ _ _, runDataEndpoint_counts o _ _ _ _⟩

/-- C10: `/api/health` never touches a connection or the warehouse: its
result is literally independent of the warehouse oracle, all connection
counters are zero, and it answers 200 with the `{status:'OK', environment,
port, host, timestamp}` body computed from the token-file check and the
clock alone. -/
theorem spcs_C10 :
    ∀ (ρ : Type) (tok : Bool) (port : Nat) (host now : String)
      (o o2 : Oracle ρ),
    apiHealth tok port host now o = apiHealth tok port host now o2 ∧
    (apiHealth tok port host now o).connectCalls = 0 ∧
    (apiHealth tok port host now o).connectionsOpened = 0 ∧
    (apiHealth tok port host now o).connectionsDestroyed = 0 ∧
    (apiHealth tok port host now o).queryCalls = 0 ∧
    (apiHealth tok port host now o).response.status = 200 ∧
    (apiHealth tok port host now o).response.body =
      Body.health "OK"
        (if tok then "SPCS Container" else "Local Development")
        port host now := by
  intro ρ tok port host now o o2
  exact ⟨rfl, rfl, rfl, rfl, rfl, rfl, rfl⟩

/-- Helper: an unrecognized (or absent) period value produces the empty
date filter. -/
theorem getDateFilter_unrecognized (p : Option String)
    (h1 : p ≠ some "q1") (h2 : p ≠ some "q2") (h3 : p ≠ some "recent3")
    (h4 : p ≠ some "early3") : getDateFilter p = "" := by
  cases p with
  | none => rfl
  | some t =>
    show (if t = "" ∨ t = "all" then ""
      else if t = "q1" then
        "AND o.order_date >= '2024-01-01' AND o.order_date < '2024-04-01'"
      else if t = "q2" then
        "AND o.order_date >= '2024-04-01' AND o.order_date < '2024-07-01'"
      else if t = "recent3" then
        "AND o.order_date >= '2024-04-01' AND o.order_date < '2024-07-01'"
      else if t = "early3" then
        "AND o.order_date >= '2024-01-01' AND o.order_date < '2024-04-01'"
      else "") = ""
    split_ifs <;> simp_all

/-- C2: for every `period` value that is none of the recognized buckets
(`q1`, `q2`, `recent3`, `early3`) — including the absent case — the date
filter equals the one for `period=all`, and every endpoint's whole request
behavior (statement sent, effect counters, response) is identical to the
same request with `period=all`; the unrecognized value is not rejected. -/
theorem spcs_C2 (p : Option String)
    (h1 : p ≠ some "q1") (h2 : p ≠ some "q2") (h3 : p ≠ some "recent3")
    (h4 : p ≠ some "early3") :
    getDateFilter p = getDateFilter (some "all") ∧
    ∀ (ρ : Type) (e : Endpoint) (category : Option String) (now : String)
      (o : Oracle ρ),
      runEndpoint e p category now o =
        runEndpoint e (some "all") category now o := by
  have hdf : getDateFilter p = "" := getDateFilter_unrecognized p h1 h2 h3 h4
  have hall : getDateFilter (some "all") = "" := rfl
  refine ⟨hdf.trans hall.symm, ?_⟩
  intro ρ e category now o
  have hstmt : endpointStatement e p category =
      endpointStatement e (some "all") category := by
    cases e <;> simp [endpointStatement, hdf, hall]
  unfold runEndpoint
  rw [hstmt]

/-- Witness for C2 at the concrete unrecognized value `period=2023`. -/
theorem spcs_C2_witness :
    ((some "2023" : Option String) ≠ some "q1" ∧
     (some "2023" : Option String) ≠ some "q2" ∧
     (some "2023" : Option String) ≠ some "recent3" ∧
     (some "2023" : Option String) ≠ some "early3") ∧
    getDateFilter (some "2023") = getDateFilter (some "all") ∧
    runEndpoint Endpoint.data (some "2023") none "ts" oTrue =
      runEndpoint Endpoint.data (some "all") none "ts" oTrue :=
  ⟨⟨by decide, by decide, by decide, by decide⟩,
   (spcs_C2 (some "2023") (by decide) (by decide) (by decide) (by decide)).1,
   (spcs_C2 (some "2023") (by decide) (by decide) (by decide) (by decide)).2
     Unit Endpoint.data none "ts" oTrue⟩

/-- C3 counterexample: the claim fails on `server.js` `/api/data`, a data
endpoint of the repository.  When connecting fails, that handler answers
with the default status 200 — not 500 — and a `{success:false, error,
mockData, message}` fallback body instead of the uniform error envelope. -/
theorem spcs_C3_counterexample :
    (serverJsApiData oFail "COMPUTE_WH" "ts").response.status = 200 ∧
    (serverJsApiData oFail "COMPUTE_WH" "ts").response.status ≠ 500 ∧
    (serverJsApiData oFail "COMPUTE_WH" "ts").response.body =
      Body.mock false "Database connection failed" "ts" "mock_user"
        "mock_role" "Using mock data for development" :=
  ⟨rfl, by decide, rfl⟩

/-- C3 amended: on the six data endpoints of the full server, every failure
(connect — which covers provisioning, since provisioning errors surface as a
rejected connect call — or query) produces the uniform `{success:false,
error: <endpoint category>}` envelope with status 500; the handler makes
exactly one connect call and at most one query (no retry) and always
returns a response (the failure is scoped to the request).  `server.js`
`/api/data` is the exception: it answers 200 with a mock-data fallback body
on failure. -/
theorem spcs_C3_amended :
    ∀ (ρ : Type) (e : Endpoint) (period category : Option String)
      (now : String) (o : Oracle ρ),
    o.connectOk = false ∨ o.query (endpointStatement e period category) = none →
    (runEndpoint e period category now o).response.status = 500 ∧
    (runEndpoint e period category now o).response.body =
      Body.envelope false (errMsg e) ∧
    (runEndpoint e period category now o).connectCalls = 1 ∧
    (runEndpoint e period category now o).queryCalls ≤ 1 := by
  intro ρ e period category now o h
  unfold runEndpoint runDataEndpoint
  cases hc : o.connectOk
  · simp
  · rcases h with h | h
    · exact absurd hc (h ▸ Bool.false_ne_true)
    · rw [h]
      simp

/-- Witness for C3 amended: a concrete connect failure on `/api/data`. -/
theorem spcs_C3_amended_witness :
    (oFail.connectOk = false ∨
      oFail.query (endpointStatement Endpoint.data none none) = none) ∧
    ((runEndpoint Endpoint.data none none "ts" oFail).response.status = 500 ∧
     (runEndpoint Endpoint.data none none "ts" oFail).response.body =
       Body.envelope false (errMsg Endpoint.data) ∧
     (runEndpoint Endpoint.data none none "ts" oFail).connectCalls = 1 ∧
     (runEndpoint Endpoint.data none none "ts" oFail).queryCalls ≤ 1) :=
  ⟨Or.inl rfl,
   spcs_C3_amended Unit Endpoint.data none none "ts" oFail (Or.inl rfl)⟩

/-- Helper: the specific-category branch of
`/api/top-products-by-category`. -/
theorem endpointStatement_tpbc_specific (period : Option String) (c : String)
    (h : ¬(c = "" ∨ c = "all")) :
    endpointStatement Endpoint.topProductsByCategory period (some c) =
      ⟨tpbcSpecificSql c (getDateFilter period), []⟩ := by
  have hred : endpointStatement Endpoint.topProductsByCategory period (some c) =
      if c = "" ∨ c = "all" then ⟨tpbcAllSql (getDateFilter period), []⟩
      else ⟨tpbcSpecificSql c (getDateFilter period), []⟩ := rfl
  rw [hred, if_neg h]

/-- Helper: the non-sentinel branch of `getCategoryFilter`. -/
theorem getCategoryFilter_specific (c : String) (h : ¬(c = "" ∨ c = "all")) :
    getCategoryFilter (some c) = "AND p.category = '" ++ (c ++ "'") := by
  have hred : getCategoryFilter (some c) =
      if c = "" ∨ c = "all" then ""
      else "AND p.category = '" ++ (c ++ "'") := rfl
  rw [hred, if_neg h]

/-- C4 counterexample: for the concrete category `Electronics`,
`/api/top-products-by-category` interpolates the raw string verbatim into
the statement text and passes an empty bind list — the opposite of the
claimed parameter binding. -/
theorem spcs_C4_counterexample :
    containsStr "Electronics"
      (endpointStatement Endpoint.topProductsByCategory none
        (some "Electronics")).sqlText ∧
    (endpointStatement Endpoint.topProductsByCategory none
      (some "Electronics")).binds = [] ∧
    ("Electronics" : String) ≠ "all" := by
  have hne : ¬(("Electronics" : String) = "" ∨ ("Electronics" : String) = "all") := by
    decide
  rw [endpointStatement_tpbc_specific none "Electronics" hne]
  exact ⟨⟨tpbcSelFrom ++ "WHERE p.category = '",
    ("' " ++ getDateFilter none) ++ tpbcTail, rfl⟩, rfl, by decide⟩

/-- C4 amended: for every category other than the sentinel (and the falsy
empty string), the category filter is applied by interpolating the raw
string into the SQL text: the category appears verbatim inside the generated
`sqlText`, the bind list handed to the warehouse client is empty, and
`getCategoryFilter` wraps the raw string in single quotes — so a value
containing a single-quote character changes the statement text itself
(the injection risk the spec tells an implementer to close by switching to
bound parameters). -/
theorem spcs_C4_amended (c : String) (period : Option String)
    (h1 : c ≠ "") (h2 : c ≠ "all") :
    containsStr c
      (endpointStatement Endpoint.topProductsByCategory period
        (some c)).sqlText ∧
    (endpointStatement Endpoint.topProductsByCategory period
      (some c)).binds = [] ∧
    getCategoryFilter (some c) = "AND p.category = '" ++ (c ++ "'") := by
  have hne : ¬(c = "" ∨ c = "all") := by simp [h1, h2]
  rw [endpointStatement_tpbc_specific period c hne,
    getCategoryFilter_specific c hne]
  exact ⟨⟨tpbcSelFrom ++ "WHERE p.category = '",
    ("' " ++ getDateFilter period) ++ tpbcTail, rfl⟩, rfl, rfl⟩

/-- Witness for C4 amended at the concrete category `Electronics`. -/
theorem spcs_C4_amended_witness :
    (("Electronics" : String) ≠ "" ∧ ("Electronics" : String) ≠ "all") ∧
    (containsStr "Electronics"
      (endpointStatement Endpoint.topProductsByCategory (some "q1")
        (some "Electronics")).sqlText ∧
     (endpointStatement Endpoint.topProductsByCategory (some "q1")
       (some "Electronics")).binds = [] ∧
     getCategoryFilter (some "Electronics") =
       "AND p.category = '" ++ ("Electronics" ++ "'")) :=
  ⟨⟨by decide, by decide⟩,
   spcs_C4_amended "Electronics" (some "q1") (by decide) (by decide)⟩

/-- An environment supplying every credential field the claim names. -/
def envBoth : EnvVars :=
  { account := some "ENV_ACCT", username := some "ENV_USER", user := none,
    password := some "ENV_PW", role := none, warehouse := some "ENV_WH",
    database := none, schema := none }

/-- A config-file section supplying the same fields. -/
def cfgBoth : SnowsqlConnection :=
  { account := some "CFG_ACCT", username := some "CFG_USER",
    password := some "CFG_PW", warehouse := some "CFG_WH" }

/-- C5 counterexample: with the account (and the other credential fields)
supplied by both sources, the provisioned parameter set of `server.js`
contains the configuration-file value, not the environment value — the
precedence is the reverse of the claimed one. -/
theorem spcs_C5_counterexample :
    (getSnowflakeConfigLocal (some cfgBoth) envBoth).account = some "CFG_ACCT" ∧
    (getSnowflakeConfigLocal (some cfgBoth) envBoth).account ≠ some "ENV_ACCT" ∧
    (getSnowflakeConfigLocal (some cfgBoth) envBoth).username = some "CFG_USER" ∧
    (getSnowflakeConfigLocal (some cfgBoth) envBoth).password = some "CFG_PW" ∧
    (getSnowflakeConfigLocal (some cfgBoth) envBoth).warehouse = some "CFG_WH" := by
  refine ⟨rfl, ?_, rfl, rfl, rfl⟩
  decide

/-- C5 amended: in `server.js` credential mode with a config file present,
the precedence is inverted relative to the claim: for account, username,
password and warehouse the configuration-file value wins whenever it is
truthy, and the environment value is used only when the config value is
absent or empty (for warehouse, with the final literal default
`COMPUTE_WH`). -/
theorem spcs_C5_amended (c : SnowsqlConnection) (env : EnvVars) :
    (truthy c.account = true →
      (getSnowflakeConfigLocal (some c) env).account = c.account) ∧
    (truthy c.account = false →
      (getSnowflakeConfigLocal (some c) env).account = env.account) ∧
    (truthy c.username = true →
      (getSnowflakeConfigLocal (some c) env).username = c.username) ∧
    (truthy c.username = false →
      (getSnowflakeConfigLocal (some c) env).username = env.username) ∧
    (truthy c.password = true →
      (getSnowflakeConfigLocal (some c) env).password = c.password) ∧
    (truthy c.password = false →
      (getSnowflakeConfigLocal (some c) env).password = env.password) ∧
    (truthy c.warehouse = true →
      (getSnowflakeConfigLocal (some c) env).warehouse = c.warehouse) ∧
    (truthy c.warehouse = false →
      (getSnowflakeConfigLocal (some c) env).warehouse =
        jsOr env.warehouse (some "COMPUTE_WH")) := by
  refine ⟨?_, ?_, ?_, ?_, ?_, ?_, ?_, ?_⟩ <;> intro h <;>
    simp [getSnowflakeConfigLocal, jsOr, h]

/-- Witness for C5 amended, exercising both the truthy-config case and the
absent-config-value case on concrete inputs. -/
theorem spcs_C5_amended_witness :
    (truthy cfgBoth.account = true ∧
     (getSnowflakeConfigLocal (some cfgBoth) envBoth).account =
       cfgBoth.account) ∧
    (truthy (SnowsqlConnection.mk none none none none).account = false ∧
     (getSnowflakeConfigLocal
       (some (SnowsqlConnection.mk none none none none)) envBoth).account =
       envBoth.account) :=
  ⟨⟨by decide, (spcs_C5_amended cfgBoth envBoth).1 (by decide)⟩,
   ⟨by decide,
    (spcs_C5_amended (SnowsqlConnection.mk none none none none) envBoth).2.1
      (by decide)⟩⟩

/-- C6 counterexample: in the credential mode of the server that builds its
options from environment variables (`getEnvConnectionOptions` of the
`ini`-importing server), an environment supplying no account, no username
and no password yields no `ConfigurationError` at all — provisioning
returns an options record with every required field missing and the flow
still makes exactly one connection attempt with that incomplete set. -/
theorem spcs_C6_counterexample :
    truthy (p010LocalConnectionOptions emptyEnv).account = false ∧
    truthy (p010LocalConnectionOptions emptyEnv).username = false ∧
    truthy (p010LocalConnectionOptions emptyEnv).password = false ∧
    (p010ConnectFlow emptyEnv true).2 = 1 ∧
    (p010ConnectFlow emptyEnv false).2 = 1 := by
  exact ⟨rfl, rfl, rfl, rfl, rfl⟩

/-- C6 amended: the validation the claim describes lives in the snowsql
config path (`connectToSnowflakeFromConfig`): when the config section
supplies no account or no username (the environment is never consulted for
these), provisioning fails with a `ConfigurationError` naming the missing
required parameters and zero connection attempts are made; likewise, when
account and username are present but neither a `private_key_path` nor a
`password` is, it fails with a `ConfigurationError` naming the missing
authentication method, again before any connection attempt.  The env-based
provisioner of the `ini`-importing server performs no such validation and
proceeds to a connection attempt with the incomplete parameter set. -/
theorem spcs_C6_amended (s : SnowsqlSection) (env : EnvVars)
    (key : Option String) (connectOk : Bool) :
    (truthy (jsOr s.accountname s.account) = false ∨
      truthy (jsOr s.username s.user) = false →
      provisionFromSnowsqlSection s env key =
        .error (.configurationError
          "Missing required connection parameters (account, username)") ∧
      (connectFromConfigFlow s env key connectOk).2 = 0) ∧
    (truthy (jsOr s.accountname s.account) = true →
     truthy (jsOr s.username s.user) = true →
     truthy s.private_key_path = false → truthy s.password = false →
      provisionFromSnowsqlSection s env key =
        .error (.configurationError
          "Missing authentication method (private_key_path or password)") ∧
      (connectFromConfigFlow s env key connectOk).2 = 0) := by
  constructor
  · intro h
    have hp : provisionFromSnowsqlSection s env key =
        .error (.configurationError
          "Missing required connection parameters (account, username)") := by
      unfold provisionFromSnowsqlSection
      rw [if_pos h]
    exact ⟨hp, by unfold connectFromConfigFlow; rw [hp]⟩
  · intro ha hu hk hpw
    have hp : provisionFromSnowsqlSection s env key =
        .error (.configurationError
          "Missing authentication method (private_key_path or password)") := by
      unfold provisionFromSnowsqlSection
      rw [if_neg (by simp [ha, hu]), if_pos ⟨hk, hpw⟩]
    exact ⟨hp, by unfold connectFromConfigFlow; rw [hp]⟩

/-- A config section whose only content is an account name (no username, no
auth material). -/
def sectionAccountOnly : SnowsqlSection :=
  { accountname := some "ACCT", account := none, username := none,
    user := none, private_key_path := none, password := none,
    warehousename := none, warehouse := none, databasename := none,
    database := none, schemaname := none, schema := none }

/-- Witness for C6 amended: with the username missing from the config
section, provisioning fails with the configuration error and makes no
connection attempt. -/
theorem spcs_C6_amended_witness :
    (truthy (jsOr sectionAccountOnly.accountname sectionAccountOnly.account) =
       false ∨
     truthy (jsOr sectionAccountOnly.username sectionAccountOnly.user) =
       false) ∧
    (provisionFromSnowsqlSection sectionAccountOnly emptyEnv none =
      .error (.configurationError
        "Missing required connection parameters (account, username)") ∧
     (connectFromConfigFlow sectionAccountOnly emptyEnv none true).2 = 0) :=
  ⟨Or.inr (by decide),
   (spcs_C6_amended sectionAccountOnly emptyEnv none true).1
     (Or.inr (by decide))⟩

/-- C7 counterexample: `q2` and `recent3` are distinct recognized bucket
values mapped to the *same* non-empty calendar range (and their filter
fragments are identical), so the intersection of their date intervals is not
empty — the date `2024-05-15` lies in both. -/
theorem spcs_C7_counterexample :
    ("q2" : String) ≠ "recent3" ∧
    bucketRange "q2" = some ("2024-04-01", "2024-07-01") ∧
    bucketRange "recent3" = some ("2024-04-01", "2024-07-01") ∧
    getDateFilter (some "q2") = getDateFilter (some "recent3") ∧
    inRangeB ("2024-04-01", "2024-07-01") "2024-05-15" = true := by
  refine ⟨by decide, rfl, rfl, rfl, by decide⟩

/-- C7 amended: each recognized bucket maps to a fixed calendar range known
at compile time (`getDateFilter` is exactly the rendering of that range),
but the four bucket *names* denote only two distinct ranges: `early3`
aliases `q1` (Jan 1 to Apr 1, 2024) and `recent3` aliases `q2` (Apr 1 to
Jul 1, 2024).  Non-overlap holds between the two underlying ranges — every
date in the `q1` range is outside the `q2` range — not between every pair of
distinct bucket names. -/
theorem spcs_C7_amended :
    bucketRange "q1" = some ("2024-01-01", "2024-04-01") ∧
    bucketRange "q2" = some ("2024-04-01", "2024-07-01") ∧
    bucketRange "recent3" = bucketRange "q2" ∧
    bucketRange "early3" = bucketRange "q1" ∧
    (∀ t, getDateFilter (some t) = renderDateFilter (bucketRange t)) ∧
    (∀ d, inRangeB ("2024-01-01", "2024-04-01") d = true →
      inRangeB ("2024-04-01", "2024-07-01") d = false) := by
  refine ⟨rfl, rfl, rfl, rfl, getDateFilter_eq_render, ?_⟩
  intro d h
  rw [inRangeB, Bool.and_eq_true] at h
  simp [inRangeB, strLeB, h.2]

/-- Witness for C7 amended: the concrete date `2024-02-15` is in the `q1`
range and, by the theorem, outside the `q2` range. -/
theorem spcs_C7_amended_witness :
    inRangeB ("2024-01-01", "2024-04-01") "2024-02-15" = true ∧
    inRangeB ("2024-04-01", "2024-07-01") "2024-02-15" = false :=
  ⟨by decide, spcs_C7_amended.2.2.2.2.2 "2024-02-15" (by decide)⟩

/-- Helper: the `all`-sentinel branch of `/api/top-products-by-category`. -/
theorem endpointStatement_tpbc_all (period : Option String) (c : String)
    (h : c = "" ∨ c = "all") :
    endpointStatement Endpoint.topProductsByCategory period (some c) =
      ⟨tpbcAllSql (getDateFilter period), []⟩ := by
  have hred : endpointStatement Endpoint.topProductsByCategory period (some c) =
      if c = "" ∨ c = "all" then ⟨tpbcAllSql (getDateFilter period), []⟩
      else ⟨tpbcSpecificSql c (getDateFilter period), []⟩ := rfl
  rw [hred, if_pos h]

/-- C9: for every database, period and category (specific, `all` or
absent), `/api/top-products-by-category` returns at most 5 rows — rows of
shape `{productName, category, unitsSold, revenue}` (the `TPRow` record) —
sorted by revenue in descending order; and the statement both branches send
ends in the shared `GROUP BY ... ORDER BY revenue DESC LIMIT 5` tail. -/
theorem spcs_C9 (db : Db) (period category : Option String) :
    (topProductsByCategoryRows db period category).length ≤ 5 ∧
    List.Sorted revDescTP (topProductsByCategoryRows db period category) ∧
    (∃ pre, (endpointStatement Endpoint.topProductsByCategory period
      category).sqlText = pre ++ tpbcTail) := by
  refine ⟨?_, ?_, ?_⟩
  · unfold topProductsByCategoryRows
    rw [List.length_take]
    exact Nat.min_le_left _ _
  · unfold topProductsByCategoryRows
    exact List.Pairwise.sublist (List.take_sublist _ _)
      (List.sorted_insertionSort _ _)
  · cases category with
    | none =>
      refine ⟨tpbcSelFrom ++ ("WHERE 1=1 " ++ getDateFilter period), ?_⟩
      show tpbcAllSql (getDateFilter period) = _
      simp [tpbcAllSql, strAppend_assoc]
    | some c =>
      by_cases h : c = "" ∨ c = "all"
      · rw [endpointStatement_tpbc_all period c h]
        refine ⟨tpbcSelFrom ++ ("WHERE 1=1 " ++ getDateFilter period), ?_⟩
        simp [tpbcAllSql, strAppend_assoc]
      · rw [endpointStatement_tpbc_specific period c h]
        refine ⟨(tpbcSelFrom ++ "WHERE p.category = '") ++
          (c ++ ("' " ++ getDateFilter period)), ?_⟩
        simp [tpbcSpecificSql, strAppend_assoc]

/-- Helper: the product component of a joined row is a row of the PRODUCTS
table. -/
theorem mem_joinedRows_products {db : Db} {op : OrderRow × ProductRow}
    (h : op ∈ joinedRows db) : op.2 ∈ db.products := by
  unfold joinedRows at h
  rw [List.mem_flatMap] at h
  obtain ⟨o, _, hmem⟩ := h
  rw [List.mem_map] at hmem
  obtain ⟨p, hp, heq⟩ := hmem
  rw [List.mem_filter] at hp
  cases heq
  exact hp.1

/-- Helper: the specific-category branch of `/api/category-sales`. -/
theorem categorySalesRows_specific (db : Db) (period : Option String)
    (c : String) (h : ¬(c = "" ∨ c = "all")) :
    categorySalesRows db period (some c) = productBreakdownRows db period c := by
  have hred : categorySalesRows db period (some c) =
      if c = "" ∨ c = "all" then categoryBreakdownRows db period
      else productBreakdownRows db period c := rfl
  rw [hred, if_neg h]

/-- Helper: the `all`/absent/empty branch of `/api/category-sales`. -/
theorem categorySalesRows_all (db : Db) (period : Option String)
    (copt : Option String) (h : truthy copt = false ∨ copt = some "all") :
    categorySalesRows db period copt = categoryBreakdownRows db period := by
  cases copt with
  | none => rfl
  | some s =>
    have hred : categorySalesRows db period (some s) =
        if s = "" ∨ s = "all" then categoryBreakdownRows db period
        else productBreakdownRows db period s := rfl
    rcases h with hf | hall
    · have hs : s = "" := by
        by_contra hne
        simp [truthy, hne] at hf
      rw [hred, if_pos (Or.inl hs)]
    · have hs : s = "all" := by injection hall
      rw [hred, if_pos (Or.inr hs)]

/-- C8: when `/api/category-sales` is called with a specific category (a
truthy value other than the `all` sentinel), every returned row is a
per-product row — its key is the product name of a PRODUCTS row belonging
to that category; when the category is absent, empty or `all`, every
returned row is a per-category row — its key is the category of a PRODUCTS
row. -/
theorem spcs_C8 (db : Db) (period : Option String) (c : String)
    (h1 : c ≠ "") (h2 : c ≠ "all") :
    (∀ r ∈ categorySalesRows db period (some c),
      ∃ p, p ∈ db.products ∧ p.category = c ∧ r.name = p.product_name) ∧
    (∀ copt, truthy copt = false ∨ copt = some "all" →
      ∀ r ∈ categorySalesRows db period copt,
        ∃ p, p ∈ db.products ∧ r.name = p.category) := by
  constructor
  · rw [categorySalesRows_specific db period c (by simp [h1, h2])]
    intro r hr
    unfold productBreakdownRows at hr
    have hr1 := List.take_subset _ _ hr
    have hr2 := (List.perm_insertionSort revDescCS _).subset hr1
    rw [List.mem_map] at hr2
    obtain ⟨k, hk, hkr⟩ := hr2
    rw [List.mem_dedup, List.mem_map] at hk
    obtain ⟨op, hop, hks⟩ := hk
    unfold csFiltered at hop
    rw [List.mem_filter, Bool.and_eq_true] at hop
    have hcat : op.2.category = c := by
      have := hop.2.2
      exact beq_iff_eq.mp this
    refine ⟨op.2, mem_joinedRows_products hop.1, hcat, ?_⟩
    subst hkr
    show (csGroup _ k).name = op.2.product_name
    rw [← hks]
    rfl
  · intro copt hcopt r hr
    rw [categorySalesRows_all db period copt hcopt] at hr
    unfold categoryBreakdownRows at hr
    have hr1 := (List.perm_insertionSort revDescCS _).subset hr
    rw [List.mem_map] at hr1
    obtain ⟨k, hk, hkr⟩ := hr1
    rw [List.mem_dedup, List.mem_map] at hk
    obtain ⟨op, hop, hks⟩ := hk
    unfold ccFiltered at hop
    rw [List.mem_filter] at hop
    refine ⟨op.2, mem_joinedRows_products hop.1, ?_⟩
    subst hkr
    show (ccGroup _ k).name = op.2.category
    rw [← hks]
    rfl

/-- A one-order, one-product warehouse for the witnesses. -/
def exDb : Db :=
  { orders := [⟨1, 1, 1, 2, 100, "2024-02-15"⟩],
    products := [⟨1, "Widget", "Electronics"⟩] }

/-- Witness for C8 on the concrete database: the specific-category request
returns the per-product row keyed `Widget`, the `all` request the
per-category row keyed `Electronics`. -/
theorem spcs_C8_witness :
    (("Electronics" : String) ≠ "" ∧ ("Electronics" : String) ≠ "all") ∧
    (∃ p, p ∈ exDb.products ∧ p.category = "Electronics" ∧
      (CSRow.mk "Widget" 100 1).name = p.product_name) ∧
    (∃ p, p ∈ exDb.products ∧
      (CSRow.mk "Electronics" 100 1).name = p.category) :=
  ⟨⟨by decide, by decide⟩,
   (spcs_C8 exDb none "Electronics" (by decide) (by decide)).1
     (CSRow.mk "Widget" 100 1) (by decide),
   (spcs_C8 exDb none "Electronics" (by decide) (by decide)).2
     (some "all") (Or.inr rfl) (CSRow.mk "Electronics" 100 1) (by decide)⟩

end Spcs
